import Mathlib

/-!
Verification of the record-lifecycle core of the Simple-data-pipeline-02
repository.  The Python sources are shallowly embedded: dictionaries become
structures with optional fields, pendulum instants become integer seconds,
collaborator calls (Elasticsearch, Snowflake, S3) become explicit outcome
parameters, and raised exceptions become `Except` errors.
-/

deriving instance DecidableEq for Except

namespace Pipeline

/-! ## Time utilities (`utils/time_utils.py`)

`parse_time_to_seconds` applies the regex
`(?:(\d+)d)?(?:(\d+)h)?(?:(\d+)m)?(?:(\d+)s)?` with `fullmatch` to the
stripped input; `seconds_to_time_string` prints the nonzero components in
`d`, `h`, `m`, `s` order.  Characters are modelled literally; the decimal
printing of a Python f-string is modelled by `natDecimal`. -/

/-- Decimal digit character for a single digit (the source prints via
f-strings, i.e. base-10 digits, most significant first). -/
def digitChar (n : Nat) : Char :=
  match n with
  | 0 => '0'
  | 1 => '1'
  | 2 => '2'
  | 3 => '3'
  | 4 => '4'
  | 5 => '5'
  | 6 => '6'
  | 7 => '7'
  | 8 => '8'
  | _ => '9'

/-- ASCII digit test, the `\d` of the source regex on its ASCII inputs. -/
def isAsciiDigit (c : Char) : Bool := 48 ≤ c.toNat && c.toNat ≤ 57

/-- Numeric value of a digit character, as in Python `int(...)` of a digit. -/
def digitVal (c : Char) : Nat := c.toNat - 48

/-- Fuel-driven decimal printer (structural recursion so that proofs and
`decide` can evaluate it). -/
def natDecimalAux : Nat → Nat → List Char
  | 0, _ => []
  | fuel + 1, n =>
    if n < 10 then [digitChar n] else natDecimalAux fuel (n / 10) ++ [digitChar (n % 10)]

/-- Decimal digit string of a natural number, as printed by a Python
f-string. -/
def natDecimal (n : Nat) : List Char := natDecimalAux (n + 1) n

/-- Value of a digit string, as computed by Python `int` on the captured
group. -/
def digitsToNat (acc : Nat) : List Char → Nat
  | [] => acc
  | c :: cs => digitsToNat (10 * acc + digitVal c) cs

/-- Python `str.strip` whitespace test (ASCII whitespace suffices for the
strings at hand). -/
def pyIsSpace (c : Char) : Bool :=
  c.toNat == 32 || c.toNat == 9 || c.toNat == 10 || c.toNat == 13 ||
    c.toNat == 11 || c.toNat == 12

/-- Python `str.strip`: drop whitespace from both ends. -/
def pyStrip (cs : List Char) : List Char :=
  ((cs.dropWhile pyIsSpace).reverse.dropWhile pyIsSpace).reverse

/-- One optional component `(?:(\d+)u)?` of the time pattern: consume leading
digits followed by the unit character, otherwise consume nothing and
contribute 0 (mirroring `int(group or 0)`). -/
def timeComponent (unit : Char) (cs : List Char) : Nat × List Char :=
  let ds := cs.takeWhile isAsciiDigit
  if ds = [] then (0, cs)
  else
    match cs.dropWhile isAsciiDigit with
    | r :: rest => if r = unit then (digitsToNat 0 ds, rest) else (0, cs)
    | [] => (0, cs)

/-- `TIME_PATTERN.fullmatch`: the four optional components in `d h m s`
order, and the whole string must be consumed. -/
def timePatternFullMatch (cs : List Char) : Option (Nat × Nat × Nat × Nat) :=
  let dPart := timeComponent 'd' cs
  let hPart := timeComponent 'h' dPart.2
  let mPart := timeComponent 'm' hPart.2
  let sPart := timeComponent 's' mPart.2
  if sPart.2 = [] then some (dPart.1, hPart.1, mPart.1, sPart.1) else none

/-- `parse_time_to_seconds` from `utils/time_utils.py`: empty input and
non-matching input raise `ValueError`, a zero total also raises. -/
def parse_time_to_seconds (time_str : String) : Except String Int :=
  if time_str.data = [] then Except.error "Time string cannot be empty"
  else
    match timePatternFullMatch (pyStrip time_str.data) with
    | none => Except.error "Invalid time format"
    | some (d, h, m, s) =>
      let total : Int := ((d * 86400 + h * 3600 + m * 60 + s : Nat) : Int)
      if total = 0 then Except.error "Time string results in zero duration"
      else Except.ok total

/-- The `parts` list built by `seconds_to_time_string`: the nonzero
components of `t` seconds, printed in `d h m s` order and joined. -/
def timeParts (t : Nat) : List Char :=
  (if t / 86400 > 0 then natDecimal (t / 86400) ++ ['d'] else []) ++
  (if t % 86400 / 3600 > 0 then natDecimal (t % 86400 / 3600) ++ ['h'] else []) ++
  (if t % 3600 / 60 > 0 then natDecimal (t % 3600 / 60) ++ ['m'] else []) ++
  (if t % 60 > 0 then natDecimal (t % 60) ++ ['s'] else [])

/-- `seconds_to_time_string` from `utils/time_utils.py`. -/
def seconds_to_time_string (seconds : Int) : String :=
  if seconds ≤ 0 then "0s"
  else if timeParts seconds.toNat = [] then "0s"
  else String.mk (timeParts seconds.toNat)

/-! ## Watermark & window generator (`core/record_generation.py`)

Instants are modelled as integer seconds; `target_day.add(days=1)` becomes
`target_day + 86400`.  A raised exception (from `parse_time_to_seconds`)
propagates as an `Except.error`; the `None` return that signals processing
complete becomes `Except.ok none`. -/

/-- `calculate_time_window` from `core/record_generation.py`. -/
def calculate_time_window (target_day : Int) (granularity : String)
    (continuation_timestamp : Option Int) :
    Except String (Option (Int × Int × String)) := do
  let granularity_seconds ← parse_time_to_seconds granularity
  let next_day_start := target_day + 86400
  match continuation_timestamp with
  | some ct =>
    if ct < target_day then pure none
    else if next_day_start ≤ ct then pure none
    else
      let window_start_time := ct
      let desired_window_end_time := window_start_time + granularity_seconds
      let window_end_time :=
        if next_day_start < desired_window_end_time then next_day_start
        else desired_window_end_time
      let actual_interval_seconds := window_end_time - window_start_time
      pure (some (window_start_time, window_end_time,
        seconds_to_time_string actual_interval_seconds))
  | none =>
    let window_start_time := target_day
    let desired_window_end_time := window_start_time + granularity_seconds
    let window_end_time :=
      if next_day_start < desired_window_end_time then next_day_start
      else desired_window_end_time
    let actual_interval_seconds := window_end_time - window_start_time
    pure (some (window_start_time, window_end_time,
      seconds_to_time_string actual_interval_seconds))

/-! ## The drive record

One structure for the dictionary record; the dictionary's nullable values
become `Option` fields (a missing key and a `None` value are both `none`,
matching the `record.get(...)` accesses of the source).  Timestamps written
by `pendulum.now(...).to_iso8601_string()` are modelled as the integer
instant of the writing call. -/

structure DriveRecord where
  pipeline_status : Option String := none
  dag_run_id : Option String := none
  pipeline_locked_at : Option Int := none
  pipeline_start_time : Option Int := none
  pipeline_end_time : Option Int := none
  phase_completed : Option String := none
  source_to_stage_ingestion_start_time : Option Int := none
  source_to_stage_ingestion_end_time : Option Int := none
  source_to_stage_ingestion_status : Option String := none
  stage_to_target_ingestion_start_time : Option Int := none
  stage_to_target_ingestion_end_time : Option Int := none
  stage_to_target_ingestion_status : Option String := none
  audit_start_time : Option Int := none
  audit_end_time : Option Int := none
  audit_status : Option String := none
  audit_result : Option String := none
  source_count : Option Int := none
  target_count : Option Int := none
  count_difference : Option Int := none
  percentage_difference : Option Rat := none
  retry_attempt : Option Nat := none
  record_first_created_time : Option Int := none
  record_last_updated_time : Option Int := none
  window_start_time : Int := 0
  window_end_time : Int := 0
  deriving Repr, DecidableEq

/-! ## Reset policies -/

/-- `reset_on_process_failure` from `airflow_tasks/audit_task.py` (lines
157-180): clear only the audit phase fields, the audit/count fields and the
pipeline-level fields; bump retry and last-updated. -/
def reset_on_process_failure (now : Int) (r : DriveRecord) : DriveRecord :=
  { r with
    audit_start_time := none
    audit_end_time := none
    audit_status := some "PENDING"
    audit_result := none
    source_count := none
    target_count := none
    count_difference := none
    percentage_difference := none
    pipeline_start_time := none
    pipeline_end_time := none
    pipeline_status := some "PENDING"
    retry_attempt := some (r.retry_attempt.getD 0 + 1)
    record_last_updated_time := some now }

/-- `reset_on_audit_mismatch` from `airflow_tasks/audit_task.py` (lines
182-221): clear every phase, the audit/count fields, the pipeline fields,
`PHASE_COMPLETED` and both record timing fields; bump retry. -/
def reset_on_audit_mismatch (r : DriveRecord) : DriveRecord :=
  { r with
    source_to_stage_ingestion_start_time := none
    source_to_stage_ingestion_end_time := none
    source_to_stage_ingestion_status := some "PENDING"
    stage_to_target_ingestion_start_time := none
    stage_to_target_ingestion_end_time := none
    stage_to_target_ingestion_status := some "PENDING"
    audit_start_time := none
    audit_end_time := none
    audit_status := some "PENDING"
    audit_result := none
    source_count := none
    target_count := none
    count_difference := none
    percentage_difference := none
    pipeline_start_time := none
    pipeline_end_time := none
    pipeline_status := some "PENDING"
    phase_completed := none
    record_first_created_time := none
    record_last_updated_time := none
    retry_attempt := some (r.retry_attempt.getD 0 + 1) }

/-- `reset_on_failure` from `airflow_tasks/source_to_stage_transfer.py`
(lines 19-37): clear the source-to-stage fields and the pipeline fields;
bump retry and last-updated. -/
def reset_on_failure_source_to_stage (now : Int) (r : DriveRecord) : DriveRecord :=
  { r with
    source_to_stage_ingestion_start_time := none
    source_to_stage_ingestion_end_time := none
    source_to_stage_ingestion_status := some "PENDING"
    pipeline_start_time := none
    pipeline_end_time := none
    pipeline_status := some "PENDING"
    retry_attempt := some (r.retry_attempt.getD 0 + 1)
    record_last_updated_time := some now }

/-- `reset_stale_record` from `airflow_tasks/cleanup_stale_locks.py` (lines
13-28): back to PENDING, clear the lock owner and pipeline timing, bump
retry and last-updated. -/
def reset_stale_record (now : Int) (r : DriveRecord) : DriveRecord :=
  { r with
    pipeline_status := some "PENDING"
    dag_run_id := none
    pipeline_locked_at := none
    pipeline_start_time := none
    pipeline_end_time := none
    retry_attempt := some (r.retry_attempt.getD 0 + 1)
    record_last_updated_time := some now }

/-! ## Audit task (`airflow_tasks/audit_task.py`)

Collaborator outcomes are environment parameters.  `get_source_count`
catches every exception internally and returns 0 (lines 67-75), so its
outcome never raises into the caller.  `db_get_target_count`
(`pipeline_operations.get_target_count`) can raise only before its own
`try` (the `get_query_executor` call), modelled as `Except.error`; inside
the `try` it returns 0 on failure.  `stage_deletion`, `target_deletion` and
`upload_record_to_database` catch internally and return a `Bool`, which the
audit task ignores. -/

/-- The externally visible side effects of one audit invocation. -/
inductive AuditEffect where
  | purge_stage
  | purge_target
  | persist (r : DriveRecord)
  deriving Repr, DecidableEq

structure AuditEnv where
  /-- Instant of the `pendulum.now` calls of this invocation. -/
  now : Int
  /-- Outcome of the Elasticsearch count query inside `get_source_count`;
  an exception there is swallowed and becomes count 0. -/
  source_count_result : Except Unit Int
  /-- First `db_get_target_count` read; `Except.error` models the raise
  path before that function's internal `try`. -/
  target_first : Except Unit Int
  /-- Successive `db_get_target_count` reads inside the Snowpipe monitoring
  loop, as many as fit in the wall-clock budget. -/
  target_polls : List (Except Unit Int)
  /-- Return value of `stage_deletion` (ignored by the audit task). -/
  stage_deletion_ok : Bool
  /-- Return value of `target_deletion` (ignored by the audit task). -/
  target_deletion_ok : Bool
  /-- Return value of `upload_record_to_database` (ignored). -/
  upload_ok : Bool
  deriving Repr, DecidableEq

/-- `get_source_count` from `audit_task.py`: every failure is caught and
becomes a 0 count. -/
def get_source_count (outcome : Except Unit Int) : Int :=
  match outcome with
  | Except.ok n => n
  | Except.error _ => 0

/-- The Snowpipe monitoring loop of `get_target_count`: keep polling while
the difference `source_count - target_count` shrinks, stop as soon as it
does not, return the last observed count. -/
def snowpipe_monitor (source_count previous : Int) :
    List (Except Unit Int) → Except Unit Int
  | [] => Except.ok previous
  | read :: rest => do
    let current ← read
    if source_count - current < source_count - previous then
      snowpipe_monitor source_count current rest
    else
      Except.ok current

/-- `get_target_count` from `audit_task.py`: read once, stop immediately if
`source_count ≤ target_count`, otherwise monitor. -/
def get_target_count (source_count : Int) (first : Except Unit Int)
    (polls : List (Except Unit Int)) : Except Unit Int := do
  let current ← first
  if source_count ≤ current then Except.ok current
  else snowpipe_monitor source_count current polls

/-- Rounding to two decimals, as `round(x, 2)` on the percentage. -/
def round2 (q : Rat) : Rat := (round (q * 100) : Int) / 100

/-- `calculate_differences` from `audit_task.py`. -/
def calculate_differences (source_count target_count : Int) : Int × Rat :=
  let count_difference := |source_count - target_count|
  let percentage_difference : Rat :=
    if source_count = 0 then (if target_count = 0 then 0 else 100)
    else round2 ((count_difference : Rat) / (source_count : Rat) * 100)
  (count_difference, percentage_difference)

structure AuditTaskResult where
  success : Bool
  record : DriveRecord
  effects : List AuditEffect
  deriving Repr, DecidableEq

/-- `audit_task` from `airflow_tasks/audit_task.py` (lines 224-293).  The
`try`/`except` body: an exception raised inside the body (only the target
count retrieval can raise, see `AuditEnv`) is caught, the record as mutated
so far is reset via `reset_on_process_failure` and persisted, and a
structured failure is returned. -/
def audit_task (env : AuditEnv) (record : DriveRecord) : AuditTaskResult :=
  if record.audit_status = some "COMPLETED" then
    { success := true, record := record, effects := [] }
  else
    let r1 := { record with audit_start_time := some env.now }
    let source_count := get_source_count env.source_count_result
    let r2 := { r1 with source_count := some source_count }
    match get_target_count source_count env.target_first env.target_polls with
    | Except.error _ =>
      let rFail := reset_on_process_failure env.now r2
      { success := false, record := rFail, effects := [AuditEffect.persist rFail] }
    | Except.ok target_count =>
      let r3 := { r2 with target_count := some target_count }
      let diffs := calculate_differences source_count target_count
      let r4 := { r3 with count_difference := some diffs.1,
                          percentage_difference := some diffs.2 }
      let r5 := { r4 with audit_end_time := some env.now }
      if source_count = target_count then
        let r6 := { r5 with audit_status := some "COMPLETED",
                            audit_result := some "PASS",
                            phase_completed := some "AUDIT",
                            record_last_updated_time := some env.now }
        { success := true, record := r6, effects := [AuditEffect.persist r6] }
      else
        let _stage_cleaned := env.stage_deletion_ok
        let _target_cleaned := env.target_deletion_ok
        let r7 := reset_on_audit_mismatch r5
        { success := false, record := r7,
          effects := [AuditEffect.purge_stage, AuditEffect.purge_target,
                      AuditEffect.persist r7] }

/-! ## Lock acquisition (`airflow_tasks/store_new_and_pass_valid_record.py`) -/

/-- `acquire_pipeline_lock` (lines 14-29): refuse when the record is
IN_PROGRESS under a different run id, otherwise set owner, status and start
time.  `record.get` of a missing key is `none`, and `none ≠ some id`
matches Python `None != dag_run_id`. -/
def acquire_pipeline_lock (now : Int) (r : DriveRecord) (dag_run_id : String) :
    Bool × DriveRecord :=
  if r.pipeline_status = some "IN_PROGRESS" ∧ r.dag_run_id ≠ some dag_run_id then
    (false, r)
  else
    (true, { r with
      dag_run_id := some dag_run_id
      pipeline_status := some "IN_PROGRESS"
      pipeline_start_time := some now })

/-! ## Stale-lock cleanup (`airflow_tasks/cleanup_stale_locks.py`)

The loop parses `record.get('pipeline_locked_at', '')` (a missing value
makes `pendulum.parse` raise) and, for a stale record, resets it and then
calls `update_record_in_database(record)`.  That call supplies ONE argument
to a function declared with two required parameters
(`pipeline_operations.py` line 235: `update_record_in_database(final_config,
record)`), so Python raises `TypeError` at the call site; the surrounding
`except` then returns `{'success': False, 'error': ...}` with no
`cleaned_count` key.  The raising call is embedded as an `Except.error`. -/

structure CleanupResult where
  success : Bool
  cleaned_count : Option Nat
  persisted : List DriveRecord
  deriving Repr, DecidableEq

/-- The per-record loop of `cleanup_stale_locks`. -/
def cleanup_loop (now cutoff : Int) :
    List DriveRecord → Nat → Except String (Nat × List DriveRecord)
  | [], cleaned => Except.ok (cleaned, [])
  | r :: rest, cleaned =>
    match r.pipeline_locked_at with
    | none => Except.error "pendulum.parse raises on empty string"
    | some locked_at =>
      if locked_at < cutoff then
        let _reset := reset_stale_record now r
        Except.error "TypeError: update_record_in_database called with 1 argument, 2 required"
      else
        cleanup_loop now cutoff rest cleaned

/-- `cleanup_stale_locks` (lines 31-76): compute the cutoff, walk the
IN_PROGRESS records, return a structured result; any exception is caught
and yields `{'success': False}`. -/
def cleanup_stale_locks (now : Int) (stale_threshold_hours : Int)
    (in_progress_records : List DriveRecord) : CleanupResult :=
  let cutoff_time := now - 3600 * stale_threshold_hours
  match cleanup_loop now cutoff_time in_progress_records 0 with
  | Except.ok (cleaned, persisted) =>
    { success := true, cleaned_count := some cleaned, persisted := persisted }
  | Except.error _ =>
    { success := false, cleaned_count := none, persisted := [] }

/-! ## Timing validator (`core/record_validation.py`)

`validate_record_timing` (lines 48-107) with an empty `check_fields` list
(so `ensure_complete_record` returns the record unchanged).  The result
field `exit_dag` is `true` exactly when the record is rejected. -/

structure ValidationResult where
  exit_dag : Bool
  record : DriveRecord
  deriving Repr, DecidableEq

/-- `validate_record_timing`: cutoff is `now - x_time_back`, with an extra
`x_time_back` subtracted when `x_time_back ≤ granularity`; reject when
either window bound is after the cutoff. -/
def validate_record_timing (now : Int) (x_time_back granularity : String)
    (r : DriveRecord) : Except String ValidationResult := do
  let x_time_back_seconds ← parse_time_to_seconds x_time_back
  let latest_stable_time := now - x_time_back_seconds
  let granularity_seconds ← parse_time_to_seconds granularity
  let latest_stable_time :=
    if x_time_back_seconds ≤ granularity_seconds then
      latest_stable_time - x_time_back_seconds
    else latest_stable_time
  if latest_stable_time < r.window_start_time ∨
      latest_stable_time < r.window_end_time then
    pure { exit_dag := true, record := r }
  else
    pure { exit_dag := false, record := r }

/-! ## Lemmas: decimal printing and parsing -/

theorem natDecimalAux_congr :
    ∀ f1 f2 n : Nat, n < f1 → n < f2 → natDecimalAux f1 n = natDecimalAux f2 n := by
  intro f1
  induction f1 with
  | zero => intro f2 n h1 _; exact absurd h1 (Nat.not_lt_zero n)
  | succ g ih =>
    intro f2 n h1 h2
    cases f2 with
    | zero => exact absurd h2 (Nat.not_lt_zero n)
    | succ k =>
      simp only [natDecimalAux]
      by_cases hn : n < 10
      · simp [hn]
      · simp only [hn, if_false]
        rw [ih k (n / 10) (by omega) (by omega)]

theorem natDecimal_eq (n : Nat) :
    natDecimal n =
      if n < 10 then [digitChar n] else natDecimal (n / 10) ++ [digitChar (n % 10)] := by
  unfold natDecimal
  conv_lhs => rw [natDecimalAux]
  by_cases hn : n < 10
  · simp [hn]
  · simp only [hn, if_false]
    rw [natDecimalAux_congr n (n / 10 + 1) (n / 10) (by omega) (by omega)]

theorem natDecimal_ne_nil (n : Nat) : natDecimal n ≠ [] := by
  rw [natDecimal_eq]
  split <;> simp

theorem isAsciiDigit_digitChar (k : Nat) : isAsciiDigit (digitChar k) = true := by
  unfold digitChar
  split <;> decide

theorem digitVal_digitChar (k : Nat) (hk : k < 10) : digitVal (digitChar k) = k := by
  interval_cases k <;> decide

theorem natDecimal_digits (n : Nat) : ∀ c ∈ natDecimal n, isAsciiDigit c = true := by
  induction n using Nat.strong_induction_on with
  | _ n ih =>
    intro c hc
    rw [natDecimal_eq] at hc
    by_cases hn : n < 10
    · rw [if_pos hn] at hc
      simp only [List.mem_singleton] at hc
      subst hc
      exact isAsciiDigit_digitChar n
    · rw [if_neg hn] at hc
      rcases List.mem_append.mp hc with h | h
      · exact ih (n / 10) (by omega) c h
      · simp only [List.mem_singleton] at h
        subst h
        exact isAsciiDigit_digitChar (n % 10)

theorem digitsToNat_append (a : Nat) (xs ys : List Char) :
    digitsToNat a (xs ++ ys) = digitsToNat (digitsToNat a xs) ys := by
  induction xs generalizing a with
  | nil => rfl
  | cons c cs ih =>
    show digitsToNat (10 * a + digitVal c) (cs ++ ys) =
      digitsToNat (digitsToNat (10 * a + digitVal c) cs) ys
    exact ih _

theorem digitsToNat_natDecimal (n : Nat) :
    ∀ a, digitsToNat a (natDecimal n) = a * 10 ^ (natDecimal n).length + n := by
  induction n using Nat.strong_induction_on with
  | _ n ih =>
    intro a
    rw [natDecimal_eq]
    by_cases hn : n < 10
    · rw [if_pos hn]
      show 10 * a + digitVal (digitChar n) = a * 10 ^ [digitChar n].length + n
      rw [digitVal_digitChar n hn]
      simp [pow_one]
      omega
    · rw [if_neg hn]
      rw [digitsToNat_append, ih (n / 10) (by omega)]
      show digitsToNat (a * 10 ^ (natDecimal (n / 10)).length + n / 10)
          [digitChar (n % 10)] =
        a * 10 ^ ((natDecimal (n / 10)) ++ [digitChar (n % 10)]).length + n
      show 10 * (a * 10 ^ (natDecimal (n / 10)).length + n / 10) +
          digitVal (digitChar (n % 10)) =
        a * 10 ^ ((natDecimal (n / 10)) ++ [digitChar (n % 10)]).length + n
      rw [digitVal_digitChar (n % 10) (by omega)]
      rw [List.length_append]
      simp only [List.length_singleton]
      rw [pow_succ]
      have h10 : 10 * (n / 10) + n % 10 = n := by omega
      calc 10 * (a * 10 ^ (natDecimal (n / 10)).length + n / 10) + n % 10
          = a * (10 ^ (natDecimal (n / 10)).length * 10) +
              (10 * (n / 10) + n % 10) := by ring
        _ = a * (10 ^ (natDecimal (n / 10)).length * 10) + n := by rw [h10]

theorem digitsToNat_natDecimal_zero (n : Nat) : digitsToNat 0 (natDecimal n) = n := by
  simpa using digitsToNat_natDecimal n 0

/-! ## Lemmas: the time pattern on formatted output -/

theorem takeWhile_append_all {p : Char → Bool} (xs ys : List Char)
    (h : ∀ c ∈ xs, p c = true) :
    (xs ++ ys).takeWhile p = xs ++ ys.takeWhile p := by
  induction xs with
  | nil => rfl
  | cons c cs ih =>
    have hc : p c = true := h c (List.mem_cons_self c cs)
    simp only [List.cons_append, List.takeWhile_cons, hc, if_true]
    rw [ih (fun d hd => h d (List.mem_cons_of_mem c hd))]

theorem dropWhile_append_all {p : Char → Bool} (xs ys : List Char)
    (h : ∀ c ∈ xs, p c = true) :
    (xs ++ ys).dropWhile p = ys.dropWhile p := by
  induction xs with
  | nil => rfl
  | cons c cs ih =>
    have hc : p c = true := h c (List.mem_cons_self c cs)
    simp only [List.cons_append, List.dropWhile_cons, hc, if_true]
    exact ih (fun d hd => h d (List.mem_cons_of_mem c hd))

theorem takeWhile_cons_false {p : Char → Bool} (c : Char) (cs : List Char)
    (h : p c = false) : (c :: cs).takeWhile p = [] := by
  simp [List.takeWhile_cons, h]

theorem dropWhile_cons_false {p : Char → Bool} (c : Char) (cs : List Char)
    (h : p c = false) : (c :: cs).dropWhile p = c :: cs := by
  simp [List.dropWhile_cons, h]

theorem timeComponent_nil (u : Char) : timeComponent u [] = (0, []) := rfl

theorem timeComponent_present (u : Char) (hu : isAsciiDigit u = false)
    (v : Nat) (rest : List Char) :
    timeComponent u (natDecimal v ++ u :: rest) = (v, rest) := by
  have hds : (natDecimal v ++ u :: rest).takeWhile isAsciiDigit = natDecimal v := by
    rw [takeWhile_append_all _ _ (natDecimal_digits v),
        takeWhile_cons_false u rest hu, List.append_nil]
  have hdrop : (natDecimal v ++ u :: rest).dropWhile isAsciiDigit = u :: rest := by
    rw [dropWhile_append_all _ _ (natDecimal_digits v),
        dropWhile_cons_false u rest hu]
  unfold timeComponent
  simp only [hds, hdrop]
  rw [if_neg (natDecimal_ne_nil v)]
  simp [digitsToNat_natDecimal_zero]

theorem timeComponent_other_unit (u : Char) (v : Nat) (u2 : Char)
    (h2 : isAsciiDigit u2 = false) (hne : u2 ≠ u) (rest : List Char) :
    timeComponent u (natDecimal v ++ u2 :: rest) = (0, natDecimal v ++ u2 :: rest) := by
  have hds : (natDecimal v ++ u2 :: rest).takeWhile isAsciiDigit = natDecimal v := by
    rw [takeWhile_append_all _ _ (natDecimal_digits v),
        takeWhile_cons_false u2 rest h2, List.append_nil]
  have hdrop : (natDecimal v ++ u2 :: rest).dropWhile isAsciiDigit = u2 :: rest := by
    rw [dropWhile_append_all _ _ (natDecimal_digits v),
        dropWhile_cons_false u2 rest h2]
  unfold timeComponent
  simp only [hds, hdrop]
  rw [if_neg (natDecimal_ne_nil v)]
  simp [hne]

theorem stage_s (S : Nat) :
    timeComponent 's' (if S > 0 then natDecimal S ++ ['s'] else []) = (S, []) := by
  by_cases hs : S > 0
  · rw [if_pos hs]
    exact timeComponent_present 's' (by decide) S []
  · rw [if_neg hs]
    rw [show S = 0 by omega]
    exact timeComponent_nil 's'

theorem skip_tail1 (u : Char) (hus : u ≠ 's') (S : Nat) :
    timeComponent u (if S > 0 then natDecimal S ++ ['s'] else []) =
      (0, if S > 0 then natDecimal S ++ ['s'] else []) := by
  by_cases hs : S > 0
  · rw [if_pos hs]
    exact timeComponent_other_unit u S 's' (by decide) (Ne.symm hus) []
  · rw [if_neg hs]
    exact timeComponent_nil u

theorem stage_m (M S : Nat) :
    timeComponent 'm' ((if M > 0 then natDecimal M ++ ['m'] else []) ++
        (if S > 0 then natDecimal S ++ ['s'] else [])) =
      (M, (if S > 0 then natDecimal S ++ ['s'] else [])) := by
  by_cases hm : M > 0
  · rw [if_pos hm, List.append_assoc, List.singleton_append]
    exact timeComponent_present 'm' (by decide) M _
  · rw [if_neg hm, List.nil_append, show M = 0 by omega]
    exact skip_tail1 'm' (by decide) S

theorem skip_tail2 (u : Char) (hum : u ≠ 'm') (hus : u ≠ 's') (M S : Nat) :
    timeComponent u ((if M > 0 then natDecimal M ++ ['m'] else []) ++
        (if S > 0 then natDecimal S ++ ['s'] else [])) =
      (0, (if M > 0 then natDecimal M ++ ['m'] else []) ++
        (if S > 0 then natDecimal S ++ ['s'] else [])) := by
  by_cases hm : M > 0
  · rw [if_pos hm, List.append_assoc, List.singleton_append]
    exact timeComponent_other_unit u M 'm' (by decide) (Ne.symm hum) _
  · rw [if_neg hm, List.nil_append]
    exact skip_tail1 u hus S

theorem stage_h (H M S : Nat) :
    timeComponent 'h' ((if H > 0 then natDecimal H ++ ['h'] else []) ++
        ((if M > 0 then natDecimal M ++ ['m'] else []) ++
         (if S > 0 then natDecimal S ++ ['s'] else []))) =
      (H, (if M > 0 then natDecimal M ++ ['m'] else []) ++
        (if S > 0 then natDecimal S ++ ['s'] else [])) := by
  by_cases hh : H > 0
  · rw [if_pos hh, List.append_assoc, List.singleton_append]
    exact timeComponent_present 'h' (by decide) H _
  · rw [if_neg hh, List.nil_append, show H = 0 by omega]
    exact skip_tail2 'h' (by decide) (by decide) M S

theorem skip_tail3 (u : Char) (huh : u ≠ 'h') (hum : u ≠ 'm') (hus : u ≠ 's')
    (H M S : Nat) :
    timeComponent u ((if H > 0 then natDecimal H ++ ['h'] else []) ++
        ((if M > 0 then natDecimal M ++ ['m'] else []) ++
         (if S > 0 then natDecimal S ++ ['s'] else []))) =
      (0, (if H > 0 then natDecimal H ++ ['h'] else []) ++
        ((if M > 0 then natDecimal M ++ ['m'] else []) ++
         (if S > 0 then natDecimal S ++ ['s'] else []))) := by
  by_cases hh : H > 0
  · rw [if_pos hh, List.append_assoc, List.singleton_append]
    exact timeComponent_other_unit u H 'h' (by decide) (Ne.symm huh) _
  · rw [if_neg hh, List.nil_append]
    exact skip_tail2 u hum hus M S

theorem stage_d (D H M S : Nat) :
    timeComponent 'd' ((if D > 0 then natDecimal D ++ ['d'] else []) ++
        ((if H > 0 then natDecimal H ++ ['h'] else []) ++
         ((if M > 0 then natDecimal M ++ ['m'] else []) ++
          (if S > 0 then natDecimal S ++ ['s'] else [])))) =
      (D, (if H > 0 then natDecimal H ++ ['h'] else []) ++
        ((if M > 0 then natDecimal M ++ ['m'] else []) ++
         (if S > 0 then natDecimal S ++ ['s'] else []))) := by
  by_cases hd : D > 0
  · rw [if_pos hd, List.append_assoc, List.singleton_append]
    exact timeComponent_present 'd' (by decide) D _
  · rw [if_neg hd, List.nil_append, show D = 0 by omega]
    exact skip_tail3 'd' (by decide) (by decide) (by decide) H M S

theorem timePatternFullMatch_timeParts (t : Nat) :
    timePatternFullMatch (timeParts t) =
      some (t / 86400, t % 86400 / 3600, t % 3600 / 60, t % 60) := by
  unfold timeParts
  simp only [List.append_assoc]
  simp only [timePatternFullMatch, stage_d, stage_h, stage_m, stage_s]
  simp

/-! ## Lemmas: stripping and the round trip -/

theorem dropWhile_eq_self_of_none {p : Char → Bool} (cs : List Char)
    (h : ∀ c ∈ cs, p c = false) : cs.dropWhile p = cs := by
  cases cs with
  | nil => rfl
  | cons c cs => exact dropWhile_cons_false c cs (h c (List.mem_cons_self c cs))

theorem pyStrip_eq_self (cs : List Char) (h : ∀ c ∈ cs, pyIsSpace c = false) :
    pyStrip cs = cs := by
  unfold pyStrip
  rw [dropWhile_eq_self_of_none cs h,
      dropWhile_eq_self_of_none cs.reverse (fun c hc => h c (List.mem_reverse.mp hc)),
      List.reverse_reverse]

theorem isAsciiDigit_not_space (c : Char) (h : isAsciiDigit c = true) :
    pyIsSpace c = false := by
  have h1 : 48 ≤ c.toNat ∧ c.toNat ≤ 57 := by simpa [isAsciiDigit] using h
  simp only [pyIsSpace, Bool.or_eq_false_iff, beq_eq_false_iff_ne, ne_eq]
  omega

theorem timeParts_not_space (t : Nat) : ∀ c ∈ timeParts t, pyIsSpace c = false := by
  have key : ∀ (X : Nat) (u : Char), pyIsSpace u = false →
      ∀ c ∈ (if X > 0 then natDecimal X ++ [u] else []), pyIsSpace c = false := by
    intro X u hu c hc
    by_cases hX : X > 0
    · rw [if_pos hX] at hc
      rcases List.mem_append.mp hc with h | h
      · exact isAsciiDigit_not_space c (natDecimal_digits X c h)
      · simp only [List.mem_singleton] at h
        subst h
        exact hu
    · rw [if_neg hX] at hc
      simp at hc
  intro c hc
  rw [timeParts] at hc
  simp only [List.append_assoc, List.mem_append] at hc
  rcases hc with h | h | h | h
  · exact key _ 'd' (by decide) c h
  · exact key _ 'h' (by decide) c h
  · exact key _ 'm' (by decide) c h
  · exact key _ 's' (by decide) c h

theorem timeParts_eq_nil (t : Nat) (h : timeParts t = []) : t = 0 := by
  rw [timeParts] at h
  rcases List.append_eq_nil.mp h with ⟨h123, h4⟩
  rcases List.append_eq_nil.mp h123 with ⟨h12, h3⟩
  rcases List.append_eq_nil.mp h12 with ⟨h1, h2⟩
  have e1 : ¬ t / 86400 > 0 := by
    intro hp; rw [if_pos hp] at h1; simp at h1
  have e2 : ¬ t % 86400 / 3600 > 0 := by
    intro hp; rw [if_pos hp] at h2; simp at h2
  have e3 : ¬ t % 3600 / 60 > 0 := by
    intro hp; rw [if_pos hp] at h3; simp at h3
  have e4 : ¬ t % 60 > 0 := by
    intro hp; rw [if_pos hp] at h4; simp at h4
  omega

/-- Round trip of the duration-string utilities on positive values: parsing
the formatted string recovers the original number of seconds. -/
theorem parse_seconds_roundtrip (s : Int) (hs : 0 < s) :
    parse_time_to_seconds (seconds_to_time_string s) = Except.ok s := by
  have ht : 0 < s.toNat := by omega
  have hne : timeParts s.toNat ≠ [] := fun h => by
    have := timeParts_eq_nil s.toNat h
    omega
  unfold seconds_to_time_string
  rw [if_neg (by omega : ¬ s ≤ 0), if_neg hne]
  unfold parse_time_to_seconds
  rw [if_neg (by simpa using hne : ¬ (String.mk (timeParts s.toNat)).data = [])]
  have hstrip : pyStrip (String.mk (timeParts s.toNat)).data = timeParts s.toNat :=
    pyStrip_eq_self _ (timeParts_not_space s.toNat)
  rw [hstrip, timePatternFullMatch_timeParts]
  have hsum : s.toNat / 86400 * 86400 + s.toNat % 86400 / 3600 * 3600 +
      s.toNat % 3600 / 60 * 60 + s.toNat % 60 = s.toNat := by omega
  simp only []
  rw [if_neg (by
    intro h0
    have : ((s.toNat / 86400 * 86400 + s.toNat % 86400 / 3600 * 3600 +
        s.toNat % 3600 / 60 * 60 + s.toNat % 60 : Nat) : Int) = 0 := h0
    omega)]
  congr 1
  omega

/-- `parse_time_to_seconds` never returns a non-positive value: a zero
total raises `ValueError`. -/
theorem parse_ok_pos (g : String) (n : Int)
    (h : parse_time_to_seconds g = Except.ok n) : 0 < n := by
  unfold parse_time_to_seconds at h
  by_cases h0 : g.data = []
  · rw [if_pos h0] at h
    exact absurd h (by simp)
  · rw [if_neg h0] at h
    cases hm : timePatternFullMatch (pyStrip g.data) with
    | none =>
      rw [hm] at h
      exact absurd h (by simp)
    | some q =>
      rw [hm] at h
      obtain ⟨d, h2, m2, s2⟩ := q
      simp only [] at h
      by_cases hz :
          ((d * 86400 + h2 * 3600 + m2 * 60 + s2 : Nat) : Int) = 0
      · rw [if_pos hz] at h
        exact absurd h (by simp)
      · rw [if_neg hz] at h
        injection h with hn
        omega

/-- Arithmetic core of the window computation: the uncapped-or-capped end
is the minimum, stays within bounds, and its interval string parses back. -/
theorem window_core (ws gs nds : Int) (hws : ws < nds) (hgs : 0 < gs) :
    (if nds < ws + gs then nds else ws + gs) = min (ws + gs) nds ∧
    (if nds < ws + gs then nds else ws + gs) - ws ≤ gs ∧
    (if nds < ws + gs then nds else ws + gs) ≤ nds ∧
    parse_time_to_seconds
        (seconds_to_time_string ((if nds < ws + gs then nds else ws + gs) - ws)) =
      Except.ok ((if nds < ws + gs then nds else ws + gs) - ws) := by
  refine ⟨?_, ?_, ?_, ?_⟩
  · rw [min_def]
    split_ifs <;> omega
  · split_ifs <;> omega
  · split_ifs <;> omega
  · apply parse_seconds_roundtrip
    split_ifs <;> omega

/-! ## Claim theorems -/

/-- C10: round-trip of the duration-string utilities.  For every integer
`s > 0`, `parse_time_to_seconds (seconds_to_time_string s) = s`; for
`s ≤ 0` the formatter returns `"0s"`, which the parser rejects by raising
(zero duration is invalid). -/
theorem duration_string_roundtrip (s : Int) :
    (0 < s → parse_time_to_seconds (seconds_to_time_string s) = Except.ok s) ∧
    (s ≤ 0 → seconds_to_time_string s = "0s") ∧
    parse_time_to_seconds "0s" =
      Except.error "Time string results in zero duration" := by
  refine ⟨fun hs => parse_seconds_roundtrip s hs, fun hs => ?_, by decide⟩
  unfold seconds_to_time_string
  rw [if_pos hs]

/-- Witness for C10 at `s = 90061` and `s = -7`. -/
theorem duration_string_roundtrip_witness :
    parse_time_to_seconds (seconds_to_time_string 90061) = Except.ok 90061 ∧
    seconds_to_time_string (-7) = "0s" :=
  ⟨(duration_string_roundtrip 90061).1 (by decide),
   (duration_string_roundtrip (-7)).2.1 (by decide)⟩

/-- C2: with a non-null high-watermark that is strictly before
`target_day`, or at or past `target_day + 1 day` (in particular exactly
equal to it), `calculate_time_window` signals exhausted (`none`) and builds
no window. -/
theorem window_generator_exhausted (target_day ct gs : Int) (g : String)
    (hg : parse_time_to_seconds g = Except.ok gs)
    (h : ct < target_day ∨ target_day + 86400 ≤ ct) :
    calculate_time_window target_day g (some ct) = Except.ok none := by
  rcases h with h | h
  · simp only [calculate_time_window, hg]
    simp [h]
  · simp only [calculate_time_window, hg]
    simp [h, show ¬ ct < target_day by omega]

/-- Witness for C2: a watermark exactly at `target_day + 1 day`. -/
theorem window_generator_exhausted_witness :
    calculate_time_window 0 "1h" (some 86400) = Except.ok none :=
  window_generator_exhausted 0 86400 3600 "1h" (by decide) (Or.inr (by decide))

/-- C3: every produced window satisfies
`window_end = min (window_start + granularity, target_day + 1 day)`, hence
`window_end - window_start ≤ granularity` and
`window_end ≤ target_day + 1 day`, and the returned interval string parses
back to exactly `window_end - window_start`. -/
theorem window_bounds (target_day gs ws we : Int) (g ti : String) (ct : Option Int)
    (hg : parse_time_to_seconds g = Except.ok gs)
    (hct : ∀ c, ct = some c → target_day ≤ c ∧ c < target_day + 86400)
    (hres : calculate_time_window target_day g ct = Except.ok (some (ws, we, ti))) :
    we = min (ws + gs) (target_day + 86400) ∧
    we - ws ≤ gs ∧
    we ≤ target_day + 86400 ∧
    parse_time_to_seconds ti = Except.ok (we - ws) := by
  have hgs : 0 < gs := parse_ok_pos g gs hg
  cases ct with
  | none =>
    simp only [calculate_time_window, hg] at hres
    simp at hres
    obtain ⟨h1, h2, h3⟩ := hres
    subst h1
    subst h2
    subst h3
    have hcore := window_core target_day gs (target_day + 86400) (by omega) hgs
    simpa using hcore
  | some c =>
    obtain ⟨hc1, hc2⟩ := hct c rfl
    simp only [calculate_time_window, hg] at hres
    simp [show ¬ c < target_day by omega, show ¬ target_day + 86400 ≤ c by omega] at hres
    obtain ⟨h1, h2, h3⟩ := hres
    subst h1
    subst h2
    subst h3
    exact window_core c gs (target_day + 86400) (by omega) hgs

/-- Witness for C3: watermark one hour into the day, granularity one hour. -/
theorem window_bounds_witness :
    (7200 : Int) = min (3600 + 3600) (0 + 86400) ∧
    (7200 : Int) - 3600 ≤ 3600 ∧
    (7200 : Int) ≤ 0 + 86400 ∧
    parse_time_to_seconds "1h" = Except.ok (7200 - 3600) :=
  window_bounds 0 3600 3600 7200 "1h" "1h" (some 3600) (by decide)
    (fun c hc => by cases hc; exact ⟨by decide, by decide⟩) (by decide)

/-- C1: for an audit on a record not already COMPLETED whose target count
retrieval succeeds: equal counts give a PASS audit marked COMPLETED with
phase AUDIT and a single persist (no purge); different counts give exactly
one stage purge and one target purge, and the persisted record is the full
(`reset_on_audit_mismatch`) reset. -/
theorem audit_decision (env : AuditEnv) (r : DriveRecord) (tc : Int)
    (hnc : r.audit_status ≠ some "COMPLETED")
    (htc : get_target_count (get_source_count env.source_count_result)
      env.target_first env.target_polls = Except.ok tc) :
    (get_source_count env.source_count_result = tc →
      (audit_task env r).success = true ∧
      (audit_task env r).record.audit_result = some "PASS" ∧
      (audit_task env r).record.audit_status = some "COMPLETED" ∧
      (audit_task env r).record.phase_completed = some "AUDIT" ∧
      (audit_task env r).effects = [AuditEffect.persist (audit_task env r).record]) ∧
    (get_source_count env.source_count_result ≠ tc →
      ∃ rMid, (audit_task env r).record = reset_on_audit_mismatch rMid ∧
        (audit_task env r).effects =
          [AuditEffect.purge_stage, AuditEffect.purge_target,
           AuditEffect.persist (reset_on_audit_mismatch rMid)]) := by
  simp only [audit_task]
  rw [if_neg hnc, htc]
  constructor
  · intro heq
    simp [heq]
  · intro hne
    simp [hne]

/-- Witness for C1 with matching counts 5 = 5. -/
theorem audit_decision_witness :
    (audit_task
      { now := 0, source_count_result := Except.ok 5, target_first := Except.ok 5,
        target_polls := [], stage_deletion_ok := true, target_deletion_ok := true,
        upload_ok := true }
      { audit_status := some "PENDING" }).record.audit_result = some "PASS" :=
  ((audit_decision
    { now := 0, source_count_result := Except.ok 5, target_first := Except.ok 5,
      target_polls := [], stage_deletion_ok := true, target_deletion_ok := true,
      upload_ok := true }
    { audit_status := some "PENDING" } 5 (by decide) (by decide)).1 rfl).2.1

/-- C4 counterexample: a failure of the Elasticsearch count retrieval is
swallowed by `get_source_count` (count 0); with a target count of 5 the
audit then takes the mismatch path — it purges both storages and applies
the FULL reset (clearing `phase_completed`), not the process-failure reset
of the partially mutated record that the claim requires. -/
theorem audit_count_failure_counterexample :
    (audit_task
        { now := 0, source_count_result := Except.error (), target_first := Except.ok 5,
          target_polls := [], stage_deletion_ok := true, target_deletion_ok := true,
          upload_ok := true }
        { audit_status := some "PENDING",
          phase_completed := some "STAGE_TO_TARGET_INGESTION" }).record.phase_completed
        = none ∧
    (audit_task
        { now := 0, source_count_result := Except.error (), target_first := Except.ok 5,
          target_polls := [], stage_deletion_ok := true, target_deletion_ok := true,
          upload_ok := true }
        { audit_status := some "PENDING",
          phase_completed := some "STAGE_TO_TARGET_INGESTION" }).effects
        = [AuditEffect.purge_stage, AuditEffect.purge_target,
           AuditEffect.persist (audit_task
             { now := 0, source_count_result := Except.error (), target_first := Except.ok 5,
               target_polls := [], stage_deletion_ok := true, target_deletion_ok := true,
               upload_ok := true }
             { audit_status := some "PENDING",
               phase_completed := some "STAGE_TO_TARGET_INGESTION" }).record] ∧
    (audit_task
        { now := 0, source_count_result := Except.error (), target_first := Except.ok 5,
          target_polls := [], stage_deletion_ok := true, target_deletion_ok := true,
          upload_ok := true }
        { audit_status := some "PENDING",
          phase_completed := some "STAGE_TO_TARGET_INGESTION" }).record
      ≠ reset_on_process_failure 0
          { audit_status := some "PENDING",
            phase_completed := some "STAGE_TO_TARGET_INGESTION",
            audit_start_time := some 0, source_count := some 0 } := by
  decide

/-- C4 (amended): an exception raised inside the audit body (the target
count retrieval) is caught and does not propagate; the record as mutated so
far is reset with the narrower process-failure policy (preserving
`phase_completed`), persisted, and a structured failure is returned.
Failures inside `get_source_count`, however, are swallowed into a 0 count
rather than triggering any reset. -/
theorem audit_error_handling (env : AuditEnv) (r : DriveRecord)
    (hnc : r.audit_status ≠ some "COMPLETED")
    (herr : get_target_count (get_source_count env.source_count_result)
      env.target_first env.target_polls = Except.error ()) :
    (audit_task env r).success = false ∧
    (audit_task env r).record =
      reset_on_process_failure env.now
        { r with audit_start_time := some env.now,
                 source_count := some (get_source_count env.source_count_result) } ∧
    (audit_task env r).effects = [AuditEffect.persist (audit_task env r).record] ∧
    (audit_task env r).record.phase_completed = r.phase_completed ∧
    get_source_count (Except.error ()) = 0 := by
  simp only [audit_task]
  rw [if_neg hnc, herr]
  exact ⟨rfl, rfl, rfl, rfl, rfl⟩

/-- Witness for C4 (amended): the target count retrieval raises. -/
theorem audit_error_handling_witness :
    (audit_task
      { now := 0, source_count_result := Except.ok 5, target_first := Except.error (),
        target_polls := [], stage_deletion_ok := true, target_deletion_ok := true,
        upload_ok := true } { }).success = false :=
  (audit_error_handling
    { now := 0, source_count_result := Except.ok 5, target_first := Except.error (),
      target_polls := [], stage_deletion_ok := true, target_deletion_ok := true,
      upload_ok := true } { } (by decide) (by decide)).1

/-- C5: when the record is IN_PROGRESS under a different run id,
`acquire_pipeline_lock` returns failure with the record unchanged — it sets
none of `dag_run_id`, `pipeline_status`, `pipeline_start_time`. -/
theorem lock_refused_when_held_by_other (now : Int) (r : DriveRecord)
    (dag_run_id : String)
    (h1 : r.pipeline_status = some "IN_PROGRESS")
    (h2 : r.dag_run_id ≠ some dag_run_id) :
    acquire_pipeline_lock now r dag_run_id = (false, r) := by
  unfold acquire_pipeline_lock
  rw [if_pos ⟨h1, h2⟩]

/-- Witness for C5: a record locked by run `dag-a`, acquisition by `dag-b`. -/
theorem lock_refused_when_held_by_other_witness :
    acquire_pipeline_lock 0
        { pipeline_status := some "IN_PROGRESS", dag_run_id := some "dag-a" } "dag-b" =
      (false, { pipeline_status := some "IN_PROGRESS", dag_run_id := some "dag-a" }) :=
  lock_refused_when_held_by_other 0
    { pipeline_status := some "IN_PROGRESS", dag_run_id := some "dag-a" } "dag-b"
    (by decide) (by decide)

/-- C6: the full reset clears `phase_completed`; the process-failure reset
preserves `phase_completed` and both other phases' start/end/status fields,
clearing only the audit phase fields, the audit/count fields, and the
pipeline-level start/end/status. -/
theorem reset_scope_frame (now : Int) (r : DriveRecord) :
    (reset_on_audit_mismatch r).phase_completed = none ∧
    (reset_on_process_failure now r).phase_completed = r.phase_completed ∧
    (reset_on_process_failure now r).source_to_stage_ingestion_start_time =
      r.source_to_stage_ingestion_start_time ∧
    (reset_on_process_failure now r).source_to_stage_ingestion_end_time =
      r.source_to_stage_ingestion_end_time ∧
    (reset_on_process_failure now r).source_to_stage_ingestion_status =
      r.source_to_stage_ingestion_status ∧
    (reset_on_process_failure now r).stage_to_target_ingestion_start_time =
      r.stage_to_target_ingestion_start_time ∧
    (reset_on_process_failure now r).stage_to_target_ingestion_end_time =
      r.stage_to_target_ingestion_end_time ∧
    (reset_on_process_failure now r).stage_to_target_ingestion_status =
      r.stage_to_target_ingestion_status ∧
    (reset_on_process_failure now r).audit_start_time = none ∧
    (reset_on_process_failure now r).audit_end_time = none ∧
    (reset_on_process_failure now r).audit_status = some "PENDING" ∧
    (reset_on_process_failure now r).audit_result = none ∧
    (reset_on_process_failure now r).source_count = none ∧
    (reset_on_process_failure now r).target_count = none ∧
    (reset_on_process_failure now r).count_difference = none ∧
    (reset_on_process_failure now r).percentage_difference = none ∧
    (reset_on_process_failure now r).pipeline_start_time = none ∧
    (reset_on_process_failure now r).pipeline_end_time = none ∧
    (reset_on_process_failure now r).pipeline_status = some "PENDING" :=
  ⟨rfl, rfl, rfl, rfl, rfl, rfl, rfl, rfl, rfl, rfl, rfl, rfl, rfl, rfl, rfl,
   rfl, rfl, rfl, rfl⟩

/-- C7: every reset (audit process-failure, audit-mismatch full reset,
source-to-stage failure reset, stale-lock reset) sets `retry_attempt` to
its previous value plus one, hence strictly greater than before; it is
never decreased or cleared. -/
theorem resets_increment_retry (now : Int) (r : DriveRecord) :
    (reset_on_process_failure now r).retry_attempt =
      some (r.retry_attempt.getD 0 + 1) ∧
    (reset_on_audit_mismatch r).retry_attempt =
      some (r.retry_attempt.getD 0 + 1) ∧
    (reset_on_failure_source_to_stage now r).retry_attempt =
      some (r.retry_attempt.getD 0 + 1) ∧
    (reset_stale_record now r).retry_attempt =
      some (r.retry_attempt.getD 0 + 1) ∧
    r.retry_attempt.getD 0 < (reset_on_process_failure now r).retry_attempt.getD 0 ∧
    r.retry_attempt.getD 0 < (reset_on_audit_mismatch r).retry_attempt.getD 0 ∧
    r.retry_attempt.getD 0 <
      (reset_on_failure_source_to_stage now r).retry_attempt.getD 0 ∧
    r.retry_attempt.getD 0 < (reset_stale_record now r).retry_attempt.getD 0 :=
  ⟨rfl, rfl, rfl, rfl, Nat.lt_succ_self _, Nat.lt_succ_self _,
   Nat.lt_succ_self _, Nat.lt_succ_self _⟩

/-- C8 (code-bug evidence): a record locked 3 hours ago under a 2-hour
threshold is recognised as stale, but persisting the reset record calls
`update_record_in_database` with one argument where its definition requires
two, so the cleanup aborts with `success = False`, persists nothing and
counts nothing; a record locked 1 hour ago is left untouched and cleanup
reports success with zero cleaned. -/
theorem cleanup_stale_locks_arity_bug :
    cleanup_stale_locks 0 2
        [{ pipeline_status := some "IN_PROGRESS", dag_run_id := some "dag-a",
           pipeline_locked_at := some (-10800), retry_attempt := some 0 }] =
      { success := false, cleaned_count := none, persisted := [] } ∧
    cleanup_stale_locks 0 2
        [{ pipeline_status := some "IN_PROGRESS", dag_run_id := some "dag-a",
           pipeline_locked_at := some (-3600), retry_attempt := some 0 }] =
      { success := true, cleaned_count := some 0, persisted := [] } := by
  decide

/-- Monad-reduction helper: binding a successful `Except` applies the
continuation. -/
theorem except_bind_ok {ε α β : Type} (a : α) (f : α → Except ε β) :
    (Except.ok a >>= f : Except ε β) = f a := rfl

/-- Monad-reduction helper: `pure` is `Except.ok`. -/
theorem except_pure_eq {ε α : Type} (a : α) :
    (pure a : Except ε α) = Except.ok a := rfl

/-- The timing validator always returns the record unchanged with
`exit_dag` deciding the rejection condition of the source: rejected exactly
when either window bound lies after the cutoff. -/
theorem validate_record_timing_eq (now xsec gsec : Int)
    (x_time_back granularity : String) (r : DriveRecord)
    (hx : parse_time_to_seconds x_time_back = Except.ok xsec)
    (hgr : parse_time_to_seconds granularity = Except.ok gsec) :
    validate_record_timing now x_time_back granularity r =
      Except.ok
        { exit_dag :=
            decide ((if xsec ≤ gsec then now - xsec - xsec else now - xsec) <
                r.window_start_time ∨
              (if xsec ≤ gsec then now - xsec - xsec else now - xsec) <
                r.window_end_time),
          record := r } := by
  by_cases hle : xsec ≤ gsec
  · by_cases hrej : now - xsec - xsec < r.window_start_time ∨
        now - xsec - xsec < r.window_end_time
    · simp [validate_record_timing, hx, hgr, hle, hrej, except_bind_ok,
        except_pure_eq]
    · simp [validate_record_timing, hx, hgr, hle, hrej, except_bind_ok,
        except_pure_eq]
  · by_cases hrej : now - xsec < r.window_start_time ∨
        now - xsec < r.window_end_time
    · simp [validate_record_timing, hx, hgr, hle, hrej, except_bind_ok,
        except_pure_eq]
    · simp [validate_record_timing, hx, hgr, hle, hrej, except_bind_ok,
        except_pure_eq]

/-- C9 counterexample: with `now = 0`, `lookback = 1h ≤ granularity = 2h`
the cutoff is `-7200`; a record with `window_end = -7300 ≤ -7200` but
`window_start = -100` is REJECTED (`exit_dag = true`), so acceptance is not
equivalent to `window_end ≤ cutoff` alone. -/
theorem timing_validator_counterexample :
    validate_record_timing 0 "1h" "2h"
        { window_start_time := -100, window_end_time := -7300 } =
      Except.ok
        { exit_dag := true,
          record := { window_start_time := -100, window_end_time := -7300 } } ∧
    (-7300 : Int) ≤ 0 - 3600 - 3600 := by
  decide

/-- C9 (amended): a record is accepted iff BOTH `window_start` and
`window_end` are at or before the cutoff `now - lookback` (with an extra
`lookback` subtracted when `lookback ≤ granularity`); for records with
`window_start ≤ window_end` this is equivalent to `window_end` alone being
at or before the cutoff. -/
theorem timing_validator_rule (now xsec gsec : Int)
    (x_time_back granularity : String) (r : DriveRecord)
    (hx : parse_time_to_seconds x_time_back = Except.ok xsec)
    (hgr : parse_time_to_seconds granularity = Except.ok gsec) :
    ((validate_record_timing now x_time_back granularity r =
        Except.ok { exit_dag := false, record := r }) ↔
      (r.window_start_time ≤
          (if xsec ≤ gsec then now - xsec - xsec else now - xsec) ∧
        r.window_end_time ≤
          (if xsec ≤ gsec then now - xsec - xsec else now - xsec))) ∧
    (r.window_start_time ≤ r.window_end_time →
      ((validate_record_timing now x_time_back granularity r =
          Except.ok { exit_dag := false, record := r }) ↔
        r.window_end_time ≤
          (if xsec ≤ gsec then now - xsec - xsec else now - xsec))) := by
  rw [validate_record_timing_eq now xsec gsec x_time_back granularity r hx hgr]
  simp only [Except.ok.injEq, ValidationResult.mk.injEq, and_true,
    decide_eq_false_iff_not]
  generalize (if xsec ≤ gsec then now - xsec - xsec else now - xsec) = cutoff
  refine ⟨⟨fun h => ?_, fun h => ?_⟩, fun hwe => ⟨fun h => ?_, fun h => ?_⟩⟩ <;>
    omega

/-- Witness for C9 (amended) at `now = 0`, lookback `1h`, granularity
`2h`, window `[-10000, -9000]`. -/
theorem timing_validator_rule_witness :
    ((validate_record_timing 0 "1h" "2h"
        { window_start_time := -10000, window_end_time := -9000 } =
      Except.ok
          { exit_dag := false,
            record := { window_start_time := -10000, window_end_time := -9000 } }) ↔
      ((-10000 : Int) ≤ (if (3600 : Int) ≤ 7200 then 0 - 3600 - 3600 else 0 - 3600) ∧
        (-9000 : Int) ≤ (if (3600 : Int) ≤ 7200 then 0 - 3600 - 3600 else 0 - 3600))) ∧
    ((-10000 : Int) ≤ -9000 →
      ((validate_record_timing 0 "1h" "2h"
          { window_start_time := -10000, window_end_time := -9000 } =
        Except.ok
            { exit_dag := false,
              record := { window_start_time := -10000, window_end_time := -9000 } }) ↔
        (-9000 : Int) ≤ (if (3600 : Int) ≤ 7200 then 0 - 3600 - 3600 else 0 - 3600))) :=
  timing_validator_rule 0 3600 7200 "1h" "2h"
    { window_start_time := -10000, window_end_time := -9000 } (by decide) (by decide)

end Pipeline
